import Mathlib

/-!
Shallow embedding of the cache-gcp file-storage gateway's encrypted-transport
layer (src/app/utils/crypto.py, src/app/utils/encryption_middleware.py,
src/app/utils/form_parser.py, src/app/routes/files.py).

Bytes are modelled as `List Nat` with values < 256 where it matters.
Python exceptions are modelled by the `PyErr` type below; fallible code
returns `Except`.  The AES-GCM primitive (third-party `cryptography`
library) is modelled as an abstract `AEAD` record whose laws appear as
hypotheses of the theorems; JSON (stdlib `json`) is modelled by a concrete
printer and parser over the `Json` AST below.
-/

/-- Python exception values relevant to the crypto module: `ValueError`
(and its subclass `binascii.Error` raised by `base64.b64decode`), and the
`cryptography` library's `InvalidTag` raised on AEAD verification failure. -/
inductive PyErr where
  | valueError (msg : String)
  | binasciiError (msg : String)
  | invalidTag
  deriving Repr, DecidableEq

/-- The failure category an error belongs to, used to state whether two
failures reach the caller as distinct, mappable categories. -/
inductive ErrCat where
  | value
  | decode
  | auth
  deriving Repr, DecidableEq

def PyErr.category : PyErr → ErrCat
  | .valueError _ => .value
  | .binasciiError _ => .decode
  | .invalidTag => .auth

/-- `str(e)` of the exception, as interpolated by the source's
`f"... {str(e)}"` handlers (`str` of an `InvalidTag()` is empty). -/
def PyErr.msg : PyErr → String
  | .valueError m => m
  | .binasciiError m => m
  | .invalidTag => ""

/-- Python's `binascii.Error` is a subclass of `ValueError`; the routes'
`except ValueError` clauses catch both. -/
def PyErr.isValueError : PyErr → Bool
  | .valueError _ => true
  | .binasciiError _ => true
  | .invalidTag => false

/-- `fastapi.HTTPException(status_code, detail)`. -/
structure HTTPException where
  status_code : Nat
  detail : String
  deriving Repr, DecidableEq

/-- `str(e)` for a starlette `HTTPException`: `f"{status_code}: {detail}"`. -/
def HTTPException.str (e : HTTPException) : String :=
  toString e.status_code ++ ": " ++ e.detail

/-- JSON values (Python's `json` module data model, with numbers restricted
to integers; floats do not occur in any payload this development reasons
about). `obj` fields are kept in insertion order. -/
inductive Json where
  | null
  | bool (b : Bool)
  | num (n : Int)
  | str (s : String)
  | arr (xs : List Json)
  | obj (fields : List (String × Json))

/-- First-match lookup in a JSON object's field list (`d[k]` / `d.get(k)`). -/
def lookupJ (k : String) : List (String × Json) → Option Json
  | [] => none
  | (k', v) :: rest => if k' = k then some v else lookupJ k rest

def Json.isObj : Json → Bool
  | .obj _ => true
  | _ => false

/-- Python truthiness of a JSON value (`if not x`). -/
def Json.truthy : Json → Bool
  | .null => false
  | .bool b => b
  | .num n => n ≠ 0
  | .str s => s ≠ ""
  | .arr xs => !xs.isEmpty
  | .obj fs => !fs.isEmpty

/-- Truthiness of `d.get(k)` (absent key gives `None`, which is falsy). -/
def jTruthy : Option Json → Bool
  | none => false
  | some j => j.truthy

/-! ## UTF-8 (Python `str.encode()` / `bytes.decode()`) -/

def utf8EncodeChar (c : Nat) : List Nat :=
  if c < 128 then [c]
  else if c < 2048 then [192 + c / 64, 128 + c % 64]
  else if c < 65536 then [224 + c / 4096, 128 + c / 64 % 64, 128 + c % 64]
  else [240 + c / 262144, 128 + c / 4096 % 64, 128 + c / 64 % 64, 128 + c % 64]

def utf8Encode (s : String) : List Nat :=
  (s.data.map (fun c => utf8EncodeChar c.toNat)).flatten

def isCont (b : Nat) : Bool := 128 ≤ b && b < 192

/-- Strict UTF-8 decoding (fuel-indexed; rejects bad leads, bad continuation
bytes, overlong forms, surrogates and out-of-range code points, as Python's
strict `bytes.decode()` does). -/
def utf8DecodeAux : Nat → List Nat → Option (List Char)
  | 0, _ => none
  | _, [] => some []
  | fuel + 1, b :: rest =>
    if b < 128 then (utf8DecodeAux fuel rest).map (fun cs => Char.ofNat b :: cs)
    else if b < 194 then none
    else if b < 224 then
      match rest with
      | b1 :: rest' =>
        if isCont b1 then
          (utf8DecodeAux fuel rest').map (fun cs => Char.ofNat ((b - 192) * 64 + (b1 - 128)) :: cs)
        else none
      | _ => none
    else if b < 240 then
      match rest with
      | b1 :: b2 :: rest' =>
        let cp := (b - 224) * 4096 + (b1 - 128) * 64 + (b2 - 128)
        if isCont b1 && isCont b2 && decide (2048 ≤ cp) && !(55296 ≤ cp && cp < 57344) then
          (utf8DecodeAux fuel rest').map (fun cs => Char.ofNat cp :: cs)
        else none
      | _ => none
    else if b < 245 then
      match rest with
      | b1 :: b2 :: b3 :: rest' =>
        let cp := (b - 240) * 262144 + (b1 - 128) * 4096 + (b2 - 128) * 64 + (b3 - 128)
        if isCont b1 && isCont b2 && isCont b3 && decide (65536 ≤ cp) && decide (cp < 1114112) then
          (utf8DecodeAux fuel rest').map (fun cs => Char.ofNat cp :: cs)
        else none
      | _ => none
    else none

def utf8Decode (bs : List Nat) : Option String :=
  (utf8DecodeAux (bs.length + 1) bs).map String.mk

/-! ## `bytes.fromhex` -/

def hexDigitVal (c : Char) : Option Nat :=
  if '0' ≤ c ∧ c ≤ '9' then some (c.toNat - 48)
  else if 'a' ≤ c ∧ c ≤ 'f' then some (c.toNat - 87)
  else if 'A' ≤ c ∧ c ≤ 'F' then some (c.toNat - 55)
  else none

def hexPairs : List Char → Except PyErr (List Nat)
  | [] => .ok []
  | [_] => .error (.valueError "fromhex() arg must contain an even number of hexadecimal digits")
  | a :: b :: rest =>
    match hexDigitVal a, hexDigitVal b with
    | some x, some y => (hexPairs rest).map (fun t => (x * 16 + y) :: t)
    | _, _ => .error (.valueError "non-hexadecimal number found in fromhex() arg")

def bytesFromhex (s : String) : Except PyErr (List Nat) :=
  hexPairs (s.data.filter (fun c => c ≠ ' '))

/-! ## SHA-256 (`hashlib.sha256(...).digest()`) -/

def rotr32 (n x : Nat) : Nat := ((x >>> n) ||| (x <<< (32 - n))) % 4294967296

def beBytes : Nat → Nat → List Nat
  | 0, _ => []
  | k + 1, v => beBytes k (v / 256) ++ [v % 256]

def toWords32 : List Nat → List Nat
  | a :: b :: c :: d :: rest => (((a * 256 + b) * 256 + c) * 256 + d) :: toWords32 rest
  | _ => []

def shaK : List Nat :=
  [1116352408, 1899447441, 3049323471, 3921009573, 961987163, 1508970993,
   2453635748, 2870763221, 3624381080, 310598401, 607225278, 1426881987,
   1925078388, 2162078206, 2614888103, 3248222580, 3835390401, 4022224774,
   264347078, 604807628, 770255983, 1249150122, 1555081692, 1996064986,
   2554220882, 2821834349, 2952996808, 3210313671, 3336571891, 3584528711,
   113926993, 338241895, 666307205, 773529912, 1294757372, 1396182291,
   1695183700, 1986661051, 2177026350, 2456956037, 2730485921, 2820302411,
   3259730800, 3345764771, 3516065817, 3600352804, 4094571909, 275423344,
   430227734, 506948616, 659060556, 883997877, 958139571, 1322822218,
   1537002063, 1747873779, 1955562222, 2024104815, 2227730452, 2361852424,
   2428436474, 2756734187, 3204031479, 3329325298]

def shaH0 : List Nat :=
  [1779033703, 3144134277, 1013904242, 2773480762, 1359893119,
   2600822924, 528734635, 1541459225]

def shaPad (bs : List Nat) : List Nat :=
  let L := bs.length
  bs ++ [128] ++ List.replicate ((64 - (L + 9) % 64) % 64) 0 ++ beBytes 8 (L * 8)

def shaSchedule : Nat → List Nat → List Nat
  | 0, w => w
  | f + 1, w =>
    let i := w.length
    let nw := ((rotr32 17 (w.getD (i - 2) 0) ^^^ rotr32 19 (w.getD (i - 2) 0) ^^^ (w.getD (i - 2) 0 >>> 10)) +
               w.getD (i - 7) 0 +
               (rotr32 7 (w.getD (i - 15) 0) ^^^ rotr32 18 (w.getD (i - 15) 0) ^^^ (w.getD (i - 15) 0 >>> 3)) +
               w.getD (i - 16) 0) % 4294967296
    shaSchedule f (w ++ [nw])

def shaCompress (h : List Nat) (w16 : List Nat) : List Nat :=
  let w := shaSchedule 48 w16
  let step := fun (st : Nat × Nat × Nat × Nat × Nat × Nat × Nat × Nat) (kw : Nat × Nat) =>
    let (a, b, c, d, e, f, g, hh) := st
    let t1 := (hh + (rotr32 6 e ^^^ rotr32 11 e ^^^ rotr32 25 e) +
               ((e &&& f) ^^^ ((e ^^^ 4294967295) &&& g)) + kw.1 + kw.2) % 4294967296
    let t2 := ((rotr32 2 a ^^^ rotr32 13 a ^^^ rotr32 22 a) +
               ((a &&& b) ^^^ (a &&& c) ^^^ (b &&& c))) % 4294967296
    ((t1 + t2) % 4294967296, a, b, c, (d + t1) % 4294967296, e, f, g)
  let fin := (shaK.zip w).foldl step
    (h.getD 0 0, h.getD 1 0, h.getD 2 0, h.getD 3 0, h.getD 4 0, h.getD 5 0, h.getD 6 0, h.getD 7 0)
  match fin with
  | (a, b, c, d, e, f, g, hh) =>
    [(h.getD 0 0 + a) % 4294967296, (h.getD 1 0 + b) % 4294967296,
     (h.getD 2 0 + c) % 4294967296, (h.getD 3 0 + d) % 4294967296,
     (h.getD 4 0 + e) % 4294967296, (h.getD 5 0 + f) % 4294967296,
     (h.getD 6 0 + g) % 4294967296, (h.getD 7 0 + hh) % 4294967296]

def shaBlocks : Nat → List Nat → List (List Nat)
  | 0, _ => []
  | _, [] => []
  | f + 1, ws => ws.take 16 :: shaBlocks f (ws.drop 16)

def sha256 (bs : List Nat) : List Nat :=
  let ws := toWords32 (shaPad bs)
  (((shaBlocks ws.length ws).foldl shaCompress shaH0).map (beBytes 4)).flatten

/-! ## Base64 (`base64.b64encode` / `base64.b64decode`) -/

def b64Alphabet : List Char :=
  "ABCDEFGHIJKLMNOPQRSTUVWXYZabcdefghijklmnopqrstuvwxyz0123456789+/".data

def encChar64 (i : Nat) : Char := b64Alphabet.getD i 'A'

def isB64 (c : Char) : Bool := b64Alphabet.contains c

def decB64 (c : Char) : Nat := b64Alphabet.indexOf c

def b64encode : List Nat → List Char
  | [] => []
  | [a] => [encChar64 (a / 4), encChar64 (a % 4 * 16), '=', '=']
  | [a, b] => [encChar64 (a / 4), encChar64 (a % 4 * 16 + b / 16), encChar64 (b % 16 * 4), '=']
  | a :: b :: c :: rest =>
    encChar64 (a / 4) :: encChar64 (a % 4 * 16 + b / 16) ::
      encChar64 (b % 16 * 4 + c / 64) :: encChar64 (c % 64) :: b64encode rest

def b64decodeQuads : List Char → Except PyErr (List Nat)
  | [] => .ok []
  | [_] => .error (.binasciiError
      "Invalid base64-encoded string: number of data characters cannot be 1 more than a multiple of 4")
  | [a, b] => .ok [decB64 a * 4 + decB64 b / 16]
  | [a, b, c] => .ok [decB64 a * 4 + decB64 b / 16, decB64 b % 16 * 16 + decB64 c / 4]
  | a :: b :: c :: d :: rest =>
    (b64decodeQuads rest).map (fun t =>
      (decB64 a * 4 + decB64 b / 16) ::
        (decB64 b % 16 * 16 + decB64 c / 4) ::
          (decB64 c % 4 * 64 + decB64 d) :: t)

/-- CPython's lenient `base64.b64decode` (`validate=False`): characters
outside the alphabet are discarded, decoding stops at the first padding
character, and a `binascii.Error` is raised when the padded length is not a
multiple of four or the data length is 1 more than a multiple of four. -/
def b64decode (s : String) : Except PyErr (List Nat) :=
  let cs := s.data.filter (fun c => isB64 c || c == '=')
  let data := cs.takeWhile (fun c => c ≠ '=')
  if data.length % 4 == 1 then
    .error (.binasciiError
      "Invalid base64-encoded string: number of data characters cannot be 1 more than a multiple of 4")
  else if cs.length % 4 ≠ 0 then .error (.binasciiError "Incorrect padding")
  else b64decodeQuads data

/-! ## JSON (`json.dumps` / `json.loads`)

Model restrictions (stated here once): numbers are integers (no floats),
`\uXXXX` escapes decode to a single code point (no surrogate-pair
recombination).  No payload reasoned about below exercises these corners. -/

def hexDigitChar (n : Nat) : Char :=
  if n < 10 then Char.ofNat (48 + n) else Char.ofNat (87 + n)

def hex4 (n : Nat) : List Char :=
  [hexDigitChar (n / 4096 % 16), hexDigitChar (n / 256 % 16),
   hexDigitChar (n / 16 % 16), hexDigitChar (n % 16)]

/-- `json.dumps` escaping with the default `ensure_ascii=True`. -/
def jsonEscapeChar (c : Char) : List Char :=
  if c = '"' then ['\\', '"']
  else if c = '\\' then ['\\', '\\']
  else if c = '\n' then ['\\', 'n']
  else if c = '\t' then ['\\', 't']
  else if c = '\r' then ['\\', 'r']
  else if c.toNat = 8 then ['\\', 'b']
  else if c.toNat = 12 then ['\\', 'f']
  else if c.toNat < 32 ∨ 127 ≤ c.toNat then
    if c.toNat < 65536 then '\\' :: 'u' :: hex4 c.toNat
    else
      let v := c.toNat - 65536
      '\\' :: 'u' :: hex4 (55296 + v / 1024) ++ ('\\' :: 'u' :: hex4 (56320 + v % 1024))
  else [c]

def jsonDumpStr (s : String) : String :=
  "\"" ++ String.mk ((s.data.map jsonEscapeChar).flatten) ++ "\""

mutual

/-- `json.dumps` with the default separators `", "` and `": "`. -/
def jsonDumps : Json → String
  | .null => "null"
  | .bool true => "true"
  | .bool false => "false"
  | .num n => toString n
  | .str s => jsonDumpStr s
  | .arr xs => "[" ++ jsonDumpsList xs ++ "]"
  | .obj fs => "\x7b" ++ jsonDumpsFields fs ++ "\x7d"

def jsonDumpsList : List Json → String
  | [] => ""
  | [x] => jsonDumps x
  | x :: y :: rest => jsonDumps x ++ ", " ++ jsonDumpsList (y :: rest)

def jsonDumpsFields : List (String × Json) → String
  | [] => ""
  | [(k, v)] => jsonDumpStr k ++ ": " ++ jsonDumps v
  | (k, v) :: f :: rest => jsonDumpStr k ++ ": " ++ jsonDumps v ++ ", " ++ jsonDumpsFields (f :: rest)

end

def isJsonWs (c : Char) : Bool := c = ' ' || c = '\t' || c = '\n' || c = '\r'

def skipWs (cs : List Char) : List Char := cs.dropWhile isJsonWs

def parseDigits (cs : List Char) : Option (Nat × List Char) :=
  let ds := cs.takeWhile Char.isDigit
  if ds.isEmpty then none
  else some (ds.foldl (fun acc c => acc * 10 + (c.toNat - 48)) 0, cs.dropWhile Char.isDigit)

/-- Reject a following `.`/`e`/`E`: floats are outside this model. -/
def intGuard (r : List Char) (j : Json) : Option (Json × List Char) :=
  match r with
  | c :: _ => if c = '.' || c = 'e' || c = 'E' then none else some (j, r)
  | [] => some (j, r)

def parseNum (cs : List Char) : Option (Json × List Char) :=
  match cs with
  | '-' :: rest => (parseDigits rest).bind (fun p => intGuard p.2 (Json.num (-(p.1 : Int))))
  | _ => (parseDigits cs).bind (fun p => intGuard p.2 (Json.num (p.1 : Int)))

mutual

def parseStrAux : Nat → List Char → Option (List Char × List Char)
  | 0, _ => none
  | _, [] => none
  | fuel + 1, c :: r =>
    if c = '"' then some ([], r)
    else if c = '\\' then
      match r with
      | [] => none
      | e :: r' =>
        if e = '"' ∨ e = '\\' ∨ e = '/' then
          (parseStrAux fuel r').map (fun p => (e :: p.1, p.2))
        else if e = 'b' then (parseStrAux fuel r').map (fun p => (Char.ofNat 8 :: p.1, p.2))
        else if e = 'f' then (parseStrAux fuel r').map (fun p => (Char.ofNat 12 :: p.1, p.2))
        else if e = 'n' then (parseStrAux fuel r').map (fun p => ('\n' :: p.1, p.2))
        else if e = 'r' then (parseStrAux fuel r').map (fun p => (Char.ofNat 13 :: p.1, p.2))
        else if e = 't' then (parseStrAux fuel r').map (fun p => ('\t' :: p.1, p.2))
        else if e = 'u' then
          match r' with
          | h1 :: h2 :: h3 :: h4 :: r'' =>
            match hexDigitVal h1, hexDigitVal h2, hexDigitVal h3, hexDigitVal h4 with
            | some x1, some x2, some x3, some x4 =>
              (parseStrAux fuel r'').map
                (fun p => (Char.ofNat (((x1 * 16 + x2) * 16 + x3) * 16 + x4) :: p.1, p.2))
            | _, _, _, _ => none
          | _ => none
        else none
    else if c.toNat < 32 then none
    else (parseStrAux fuel r).map (fun p => (c :: p.1, p.2))

def parseJ : Nat → List Char → Option (Json × List Char)
  | 0, _ => none
  | fuel + 1, cs =>
    match skipWs cs with
    | [] => none
    | c :: rest =>
      if c = 'n' then
        match rest with
        | 'u' :: 'l' :: 'l' :: r => some (.null, r)
        | _ => none
      else if c = 't' then
        match rest with
        | 'r' :: 'u' :: 'e' :: r => some (.bool true, r)
        | _ => none
      else if c = 'f' then
        match rest with
        | 'a' :: 'l' :: 's' :: 'e' :: r => some (.bool false, r)
        | _ => none
      else if c = '"' then (parseStrAux fuel rest).map (fun p => (.str (String.mk p.1), p.2))
      else if c = '[' then
        match skipWs rest with
        | ']' :: r => some (.arr [], r)
        | _ => (parseArrItems fuel rest).map (fun p => (.arr p.1, p.2))
      else if c = '{' then
        match skipWs rest with
        | '}' :: r => some (.obj [], r)
        | _ => (parseObjItems fuel rest).map (fun p => (.obj p.1, p.2))
      else if c = '-' || c.isDigit then parseNum (c :: rest)
      else none

def parseArrItems : Nat → List Char → Option (List Json × List Char)
  | 0, _ => none
  | fuel + 1, cs =>
    (parseJ fuel cs).bind (fun p =>
      match skipWs p.2 with
      | ',' :: r => (parseArrItems fuel r).map (fun q => (p.1 :: q.1, q.2))
      | ']' :: r => some ([p.1], r)
      | _ => none)

def parseObjItems : Nat → List Char → Option (List (String × Json) × List Char)
  | 0, _ => none
  | fuel + 1, cs =>
    match skipWs cs with
    | '"' :: r =>
      (parseStrAux fuel r).bind (fun kp =>
        match skipWs kp.2 with
        | ':' :: r2 =>
          (parseJ fuel r2).bind (fun vp =>
            match skipWs vp.2 with
            | ',' :: r4 => (parseObjItems fuel r4).map (fun q => ((String.mk kp.1, vp.1) :: q.1, q.2))
            | '}' :: r4 => some ([(String.mk kp.1, vp.1)], r4)
            | _ => none)
        | _ => none)
    | _ => none

end

def jsonLoads (s : String) : Option Json :=
  match parseJ (s.data.length + 16) s.data with
  | some (j, r) => if (skipWs r).isEmpty then some j else none
  | none => none

/-- `json.loads(bs.decode())`, `none` standing for the caught
`(json.JSONDecodeError, UnicodeDecodeError)` pair. -/
def jsonLoadsBytes (bs : List Nat) : Option Json :=
  (utf8Decode bs).bind jsonLoads

/-! ## AEAD primitive (`cryptography.hazmat.primitives.ciphers.aead.AESGCM`)

The AES-GCM cipher itself is third-party library code, modelled as an
abstract record: `encrypt key nonce plaintext` returns the
ciphertext-with-tag, `decrypt key nonce ciphertext` returns the plaintext
or `none` for an `InvalidTag` verification failure.  The laws the real
cipher provides (round-trip, tamper rejection) appear as hypotheses of the
theorems that need them. -/

structure AEAD where
  encrypt : List Nat → List Nat → List Nat → List Nat
  decrypt : List Nat → List Nat → List Nat → Option (List Nat)

/-- Executable specimen scheme used to instantiate witnesses: the "tag" is
16 zero bytes, checked on decryption.  (It satisfies the AEAD round-trip
law; it is not claimed to satisfy any security property.) -/
def padAEAD : AEAD where
  encrypt := fun _ _ pt => pt ++ List.replicate 16 0
  decrypt := fun _ _ ct =>
    if 16 ≤ ct.length ∧ ct.drop (ct.length - 16) = List.replicate 16 0 then
      some (ct.take (ct.length - 16))
    else none

/-! ## `src/app/utils/crypto.py` -/

/-- `AESCrypto` instance state: just the configured key hash string
(`self.key_hash`, guaranteed truthy by `__init__`). -/
structure AESCrypto where
  key_hash : String
  deriving Repr, DecidableEq

/-- Python `a or b` over optional strings (`None` and `""` are falsy). -/
def pyOrStr (a b : Option String) : Option String :=
  match a with
  | some s => if s = "" then b else some s
  | none => b

/-- `AESCrypto.__init__(key_hash)`: `self.key_hash = key_hash or
os.getenv('AES_KEY_HASH')`, then `if not self.key_hash: raise
ValueError(...)`.  `env` is the value of the `AES_KEY_HASH` environment
variable. -/
def AESCrypto.mk? (key_hash env : Option String) : Except PyErr AESCrypto :=
  match pyOrStr key_hash env with
  | some s =>
    if s = "" then .error (.valueError "AES_KEY_HASH environment variable not set")
    else .ok ⟨s⟩
  | none => .error (.valueError "AES_KEY_HASH environment variable not set")

/-- `AESCrypto._derive_key_from_hash`: `if len(key_hash) == 64: return
bytes.fromhex(key_hash)[:32] else: return
hashlib.sha256(key_hash.encode()).digest()`.  Note the branch tests only
the LENGTH; `bytes.fromhex` then raises on non-hex characters. -/
def AESCrypto.derive_key_from_hash (key_hash : String) : Except PyErr (List Nat) :=
  if key_hash.length = 64 then (bytesFromhex key_hash).map (fun bs => bs.take 32)
  else .ok (sha256 (utf8Encode key_hash))

/-- The `Union[Dict, str, bytes]`-and-fallback input type of
`encrypt_payload` (`pother` stands for the `str(data)` catch-all branch,
carrying the stringification). -/
inductive PyData where
  | pdict (fields : List (String × Json))
  | pstr (s : String)
  | pbytes (bs : List Nat)
  | pother (stringified : String)

/-- `AESCrypto.encrypt_payload(data)`.  The random `os.urandom(12)` nonce
is passed in explicitly as an environment input.  The surrounding
`try/except` rewraps any failure as `ValueError(f"Encryption failed: ...")`
(the only fallible step in the body is key derivation). -/
def AESCrypto.encrypt_payload (c : AESCrypto) (A : AEAD) (nonce : List Nat) (data : PyData) :
    Except PyErr String :=
  let plaintext :=
    match data with
    | .pdict fs => utf8Encode (jsonDumps (Json.obj fs))
    | .pstr s => utf8Encode s
    | .pbytes bs => bs
    | .pother r => utf8Encode r
  match AESCrypto.derive_key_from_hash c.key_hash with
  | .error e => .error (.valueError ("Encryption failed: " ++ e.msg))
  | .ok key => .ok (String.mk (b64encode (nonce ++ A.encrypt key nonce plaintext)))

/-- Result type of `decrypt_payload`: the value returned by `json.loads`
(any JSON shape) or the raw plaintext bytes. -/
inductive DecResult where
  | json (j : Json)
  | bytes (bs : List Nat)

/-- The `try`-block body of `AESCrypto.decrypt_payload`: base64-decode,
split nonce = first 12 bytes / ciphertext = rest, derive key, AEAD-decrypt
(`InvalidTag` on failure), then try `json.loads(plaintext.decode())`
falling back to the raw bytes. -/
def AESCrypto.decrypt_payload_body (c : AESCrypto) (A : AEAD) (encrypted_data : String) :
    Except PyErr DecResult :=
  match b64decode encrypted_data with
  | .error e => .error e
  | .ok encrypted_bytes =>
    let nonce := encrypted_bytes.take 12
    let ciphertext := encrypted_bytes.drop 12
    match AESCrypto.derive_key_from_hash c.key_hash with
    | .error e => .error e
    | .ok key =>
      match A.decrypt key nonce ciphertext with
      | none => .error .invalidTag
      | some plaintext =>
        match jsonLoadsBytes plaintext with
        | some j => .ok (.json j)
        | none => .ok (.bytes plaintext)

/-- `AESCrypto.decrypt_payload(encrypted_data)`: the body above inside
`try: ... except Exception as e: raise ValueError(f"Decryption failed:
{str(e)}")` — every failure cause is rewrapped into that one generic
`ValueError`. -/
def AESCrypto.decrypt_payload (c : AESCrypto) (A : AEAD) (encrypted_data : String) :
    Except PyErr DecResult :=
  match AESCrypto.decrypt_payload_body c A encrypted_data with
  | .ok r => .ok r
  | .error e => .error (.valueError ("Decryption failed: " ++ e.msg))

/-- `AESCrypto.is_encrypted_request(data)`. -/
def AESCrypto.is_encrypted_request (data : Json) : Bool :=
  match data with
  | .obj fs => (lookupJ "encrypted_payload" fs).isSome
  | _ => false

/-! ## `src/app/utils/encryption_middleware.py` -/

/-- `handle_encrypted_request(request_data)`.  The request body is a Python
value modelled as `Json` (`Json.obj` for mappings).  When an
`encrypted_payload` field is present its value is fed to
`crypto.decrypt_payload`; a dict result is returned, a bytes result is
re-parsed with `json.loads` (returning whatever `loads` returns), any other
shape raises; every exception in that block is caught and re-raised as
`HTTPException(400, f"Failed to decrypt payload: {e}")`.  Without the
field, a dict is returned unchanged and any non-dict body becomes `{}`
(`request_data if isinstance(request_data, dict) else {}`). -/
def handle_encrypted_request (c : AESCrypto) (A : AEAD) (request_data : Json) :
    Except HTTPException Json :=
  match request_data with
  | .obj fs =>
    match lookupJ "encrypted_payload" fs with
    | some v =>
      match v with
      | .str s =>
        match AESCrypto.decrypt_payload c A s with
        | .error e => .error ⟨400, "Failed to decrypt payload: " ++ e.msg⟩
        | .ok (.json (.obj fs')) => .ok (.obj fs')
        | .ok (.json _) =>
          -- not a dict and not bytes: `raise ValueError("Decrypted payload
          -- has unexpected type")`, caught by the handler below
          .error ⟨400, "Failed to decrypt payload: Decrypted payload has unexpected type"⟩
        | .ok (.bytes bs) =>
          -- `return json.loads(decrypted.decode())` (any shape), or
          -- `raise ValueError("Decrypted payload is not valid JSON")`
          match jsonLoadsBytes bs with
          | some j => .ok j
          | none => .error ⟨400, "Failed to decrypt payload: Decrypted payload is not valid JSON"⟩
      | _ =>
        -- `base64.b64decode` of a non-string raises `TypeError` inside
        -- `decrypt_payload`'s own try, which rewraps it as
        -- `ValueError("Decryption failed: ...")` before this handler sees it
        .error ⟨400, "Failed to decrypt payload: Decryption failed: argument should be a bytes-like object or ASCII string"⟩
    | none => .ok (.obj fs)
  | _ => .ok (.obj [])

/-- `requires_encryption()`: `try: return crypto.key_hash is not None
except: return False`, reading the module-level global `crypto =
AESCrypto()`.  The function only exists in a process whose import of the
crypto module succeeded, so `crypto` is a constructed instance whose
`key_hash` attribute holds a (truthy) string, never `None`: the try-body
returns `True` and the `except` arm is dead code.  (When no key material
is configured the import itself raises — see `AESCrypto.mk?` and
`program_wrap_response` — and this function is not callable at all.) -/
def requires_encryption (c : AESCrypto) : Bool :=
  -- `crypto.key_hash is not None`
  (some c.key_hash).isSome

/-- `create_encrypted_response(data, should_encrypt)`. -/
def create_encrypted_response (c : AESCrypto) (A : AEAD) (nonce : List Nat)
    (data : List (String × Json)) (should_encrypt : Bool) : Except HTTPException Json :=
  if should_encrypt then
    match AESCrypto.encrypt_payload c A nonce (.pdict data) with
    | .ok env => .ok (.obj [("encrypted_payload", .str env)])
    | .error e => .error ⟨500, "Failed to encrypt response: " ++ e.msg⟩
  else .ok (.obj data)

/-- The response-wrapping composition used by the routes (e.g.
`list_files`): `should_encrypt = client_requested_encryption and
requires_encryption()`, then `create_encrypted_response(data,
should_encrypt)` when it holds and the plain `data` otherwise.  Like
`requires_encryption`, it is only callable given the constructed global
codec `c`. -/
def wrap_response (c : AESCrypto) (A : AEAD) (nonce : List Nat)
    (data : List (String × Json)) (client_requested_encryption : Bool) :
    Except HTTPException Json :=
  let should_encrypt := client_requested_encryption && requires_encryption c
  if should_encrypt then create_encrypted_response c A nonce data should_encrypt
  else .ok (.obj data)

/-- The whole-program view of response wrapping at configuration `env`:
importing the crypto module runs the module-level `crypto = AESCrypto()`;
if that raises, the application fails to start (the outer `PyErr`) and no
response — plaintext or encrypted — is ever produced; otherwise the routes
run `wrap_response` against the constructed codec.  There is no fallback
path for absent key material. -/
def program_wrap_response (env : Option String) (A : AEAD) (nonce : List Nat)
    (data : List (String × Json)) (client_requested_encryption : Bool) :
    Except PyErr (Except HTTPException Json) :=
  match AESCrypto.mk? none env with
  | .error e => .error e
  | .ok c => .ok (wrap_response c A nonce data client_requested_encryption)

/-! ## `src/app/utils/form_parser.py` -/

/-- A multipart form value: a text field or an uploaded file
(filename + content bytes). -/
inductive FormValue where
  | fstr (s : String)
  | ffile (filename : Option String) (content : List Nat)

/-- Outcome of the framework's `await request.form(max_part_size=...)`:
the parsed field mapping, or the exception message it raised. -/
inductive FormOutcome where
  | ok (fields : List (String × FormValue))
  | err (msg : String)

def leadsWith : List Char → List Char → Bool
  | [], _ => true
  | _ :: _, [] => false
  | p :: ps, h :: hs => p == h && leadsWith ps hs

def containsSub (hay pat : List Char) : Bool :=
  match hay with
  | [] => pat.isEmpty
  | _ :: t => leadsWith pat hay || containsSub t pat

def strLower (s : String) : String := String.mk (s.data.map Char.toLower)

/-- `"maximum size" in str(e).lower()`. -/
def mentionsMaxSize (msg : String) : Bool :=
  containsSub (strLower msg).data "maximum size".data

/-- `max_bytes = 250 * 1024 * 1024` passed as `max_part_size`. -/
def upload_max_bytes : Nat := 250 * 1024 * 1024

/-- `parse_large_form(request)`: `dict(form)` on success; on exception,
`HTTPException(413, ...)` when the message mentions "maximum size",
otherwise `HTTPException(400, f"Form parsing failed: {e}")`. -/
def parse_large_form (outcome : FormOutcome) :
    Except HTTPException (List (String × FormValue)) :=
  match outcome with
  | .ok fields => .ok fields
  | .err m =>
    if mentionsMaxSize m then
      .error ⟨413, "File too large. Maximum size is 250MB for encrypted uploads."⟩
    else .error ⟨400, "Form parsing failed: " ++ m⟩

/-- Size in bytes of one form part. -/
def FormValue.partSize : FormValue → Nat
  | .fstr s => s.utf8ByteSize
  | .ffile _ content => content.length

/-- The external framework's multipart parser (starlette), modelled on its
documented behaviour: it raises `MultiPartException("Part exceeded maximum
size of {int(max_part_size/1024)}KB.")` as soon as some part exceeds
`max_part_size`, and returns the field mapping otherwise. -/
def formModel (max_part_size : Nat) (parts : List (String × FormValue)) : FormOutcome :=
  if parts.any (fun p => max_part_size < p.2.partSize) then
    .err ("Part exceeded maximum size of " ++ toString (max_part_size / 1024) ++ "KB.")
  else .ok parts

/-! ## `src/app/routes/files.py` — the two upload routes

The object store (`app/utils/gcs_client.py`, consumed as an external
collaborator) is a record of abstract operations.  Python values flowing
through the route are modelled as `Json`; `os.path.basename(urlparse(url)
.path)` and `str(uuid.uuid4())` are environment inputs. -/

structure GcsClient where
  file_exists : Json → Bool → Bool
  upload_from_url : Json → Json → Json → String × Nat
  upload_from_file : List Nat → Json → Json → String × Nat

/-- Exceptions that can be raised inside the routes' `try` blocks. -/
inductive InnerE where
  | httpE (e : HTTPException)
  | pyE (e : PyErr)
  | typeE (msg : String)
  | attrE (msg : String)

def InnerE.str : InnerE → String
  | .httpE e => e.str
  | .pyE e => e.msg
  | .typeE m => m
  | .attrE m => m

/-- Which of the modelled exceptions the routes' `except ValueError` clause
catches (`binascii.Error` is a `ValueError` subclass; `HTTPException`,
`TypeError` and `AttributeError` are not `ValueError`s). -/
def InnerE.isValueError : InnerE → Bool
  | .pyE e => e.isValueError
  | _ => false

/-- Outcome of a route call: the HTTP-level response and, when the storage
put was reached, the file id it stored under. -/
structure RouteResult where
  resp : Except HTTPException Json
  putId : Option Json

/-- The routes' shared `except ValueError as e: raise HTTPException(413,
str(e))` / `except Exception as e: raise HTTPException(500, f"Upload
failed: {str(e)}")` wrapper. -/
def routeWrap (r : Except InnerE Json × Option Json) : RouteResult :=
  match r with
  | (.ok j, pid) => ⟨.ok j, pid⟩
  | (.error ie, pid) =>
    if ie.isValueError then ⟨.error ⟨413, ie.str⟩, pid⟩
    else ⟨.error ⟨500, "Upload failed: " ++ ie.str⟩, pid⟩

/-- The `Union[UploadURLRequest, EncryptedRequest]` request body of
`upload_from_url` (pydantic guarantees `url` is a validated `HttpUrl`,
rendered by `str(request.url)`). -/
inductive UploadReq where
  | plain (url : String) (file_id : Option String) (is_public : Bool)
  | encrypted (encrypted_payload : String)

def UploadReq.isEncrypted : UploadReq → Bool
  | .plain _ _ _ => false
  | .encrypted _ => true

def jNum (n : Nat) : Json := .num (n : Int)

/-- The `try`-block body of the `upload_from_url` route. -/
def upload_from_url_body (c : AESCrypto) (A : AEAD) (nonce : List Nat)
    (g : GcsClient) (basenameOf : String → String) (uuid : String) (request : UploadReq) :
    Except InnerE Json × Option Json :=
  -- extract url / file_id / is_public from the (possibly encrypted) request
  let ext : Except InnerE (Option Json × Option Json × Json) :=
    match request with
    | .encrypted ep =>
      match handle_encrypted_request c A (.obj [("encrypted_payload", .str ep)]) with
      | .error e => .error (.httpE e)
      | .ok (.obj fs) =>
        .ok (lookupJ "url" fs, lookupJ "file_id" fs, (lookupJ "is_public" fs).getD (.bool false))
      | .ok _ => .error (.attrE "object has no attribute 'get'")
    | .plain url fid isPub => .ok (some (.str url), fid.map .str, .bool isPub)
  match ext with
  | .error e => (.error e, none)
  | .ok (url?, fid?, isPubJ) =>
    if !jTruthy url? then (.error (.httpE ⟨400, "URL is required"⟩), none)
    else
      match url? with
      | none => (.error (.httpE ⟨400, "URL is required"⟩), none)
      | some u =>
        -- Priority: API input -> filename from URL -> UUID
        let fidRes : Except InnerE Json :=
          if jTruthy fid? then .ok (fid?.getD .null)
          else
            match u with
            | .str us =>
              let filename := basenameOf us
              .ok (if filename ≠ "" ∧ filename ≠ "/" then .str filename else .str uuid)
            | _ => .error (.attrE "object has no attribute 'path'")
        match fidRes with
        | .error e => (.error e, none)
        | .ok final_file_id =>
          if g.file_exists final_file_id true || g.file_exists final_file_id false then
            (.error (.httpE ⟨409, "File already exists"⟩), none)
          else
            let ps := g.upload_from_url u final_file_id isPubJ
            let response_data := [("file_id", final_file_id), ("object_path", Json.str ps.1),
                                  ("size", jNum ps.2), ("is_public", isPubJ)]
            let should_encrypt := request.isEncrypted && requires_encryption c
            match create_encrypted_response c A nonce response_data should_encrypt with
            | .ok out => (.ok out, some final_file_id)
            | .error e => (.error (.httpE e), some final_file_id)

/-- `upload_from_url` route: body plus the `except` wrapper. -/
def upload_from_url_route (c : AESCrypto) (A : AEAD) (nonce : List Nat)
    (g : GcsClient) (basenameOf : String → String) (uuid : String) (request : UploadReq) :
    RouteResult :=
  routeWrap (upload_from_url_body c A nonce g basenameOf uuid request)

def FormValue.truthy : FormValue → Bool
  | .fstr s => s ≠ ""
  | .ffile _ _ => true

/-- The Python value a form field carries, as seen by the dict/JSON layer
(`Json.null` stands in for the opaque `UploadFile` object in the corners
where one reaches a string position; no claim depends on those corners). -/
def FormValue.toJson : FormValue → Json
  | .fstr s => .str s
  | .ffile _ _ => .null

/-- The `try`-block body of the `upload_direct` route, starting from the
framework's multipart outcome. -/
def upload_direct_body (c : AESCrypto) (A : AEAD) (nonce : List Nat)
    (g : GcsClient) (uuid : String) (outcome : FormOutcome) :
    Except InnerE Json × Option Json :=
  match parse_large_form outcome with
  | .error e => (.error (.httpE e), none)
  | .ok form_data =>
    let file? := (form_data.filter (fun p => p.1 = "file")).head?.map Prod.snd
    let file_id? := (form_data.filter (fun p => p.1 = "file_id")).head?.map Prod.snd
    let is_public? := (form_data.filter (fun p => p.1 = "is_public")).head?.map Prod.snd
    let ep? := (form_data.filter (fun p => p.1 = "encrypted_payload")).head?.map Prod.snd
    let epTruthy := match ep? with
      | some fv => fv.truthy
      | none => false
    -- extract (file_data, final_file_id, is_public_final, original_filename)
    let ext : Except InnerE (List Nat × Option Json × Json × Json) :=
      if epTruthy then
        match handle_encrypted_request c A
            (.obj [("encrypted_payload", (ep?.map FormValue.toJson).getD .null)]) with
        | .error e => .error (.httpE e)
        | .ok (.obj fs) =>
          let fd? := lookupJ "file_data" fs
          if !jTruthy fd? then .error (.httpE ⟨400, "Missing file_data in encrypted payload"⟩)
          else
            match fd? with
            | some (.str b64s) =>
              match b64decode b64s with
              | .error e => .error (.pyE e)
              | .ok file_data =>
                .ok (file_data, lookupJ "file_id" fs,
                     (lookupJ "is_public" fs).getD (.bool false),
                     (lookupJ "filename" fs).getD .null)
            | _ => .error (.typeE "argument should be a bytes-like object or ASCII string")
        | .ok _ => .error (.attrE "object has no attribute 'get'")
      else
        match file? with
        | none => .error (.httpE ⟨400, "File is required"⟩)
        | some (.fstr s) =>
          if s = "" then .error (.httpE ⟨400, "File is required"⟩)
          else .error (.attrE "'str' object has no attribute 'read'")
        | some (.ffile fn content) =>
          .ok (content, file_id?.map FormValue.toJson,
               (is_public?.map FormValue.toJson).getD (.bool false),
               (fn.map Json.str).getD .null)
    match ext with
    | .error e => (.error e, none)
    | .ok (file_data, fid?, is_public_final, original_filename) =>
      -- Priority: API input -> original filename -> UUID
      let final_file_id :=
        if jTruthy fid? then fid?.getD .null
        else if original_filename.truthy then original_filename
        else .str uuid
      if g.file_exists final_file_id true || g.file_exists final_file_id false then
        (.error (.httpE ⟨409, "File already exists"⟩), none)
      else
        let ps := g.upload_from_file file_data final_file_id is_public_final
        let response_data := [("file_id", final_file_id), ("object_path", Json.str ps.1),
                              ("size", jNum ps.2), ("is_public", is_public_final),
                              ("original_filename", original_filename)]
        -- `should_encrypt = encrypted_payload is not None and requires_encryption()`
        -- (presence, not truthiness, unlike the branch selection above)
        let should_encrypt := ep?.isSome && requires_encryption c
        match create_encrypted_response c A nonce response_data should_encrypt with
        | .ok out => (.ok out, some final_file_id)
        | .error e => (.error (.httpE e), some final_file_id)

/-- `upload_direct` route: body plus the `except` wrapper. -/
def upload_direct_route (c : AESCrypto) (A : AEAD) (nonce : List Nat)
    (g : GcsClient) (uuid : String) (outcome : FormOutcome) : RouteResult :=
  routeWrap (upload_direct_body c A nonce g uuid outcome)

/-! ## Concrete instances used by witnesses and counterexamples -/

/-- The spec's scenario key material: 64 zero characters (hex). -/
def zeroKeyHash : String := String.mk (List.replicate 64 '0')

def zeroCrypto : AESCrypto := ⟨zeroKeyHash⟩

def zeroNonce : List Nat := List.replicate 12 0

/-- The spec's scenario payload. -/
def scenarioFields : List (String × Json) :=
  [("file_id", .str "a.txt"), ("is_public", .bool false)]

/-- The shape the C8 claim allows a `decrypt_payload` result to take:
a JSON-object mapping or raw bytes. -/
def DecResult.isObjOrBytes : DecResult → Bool
  | .json (.obj _) => true
  | .bytes _ => true
  | _ => false

/-- A store in which every file id already exists in both partitions. -/
def allExistsGcs : GcsClient :=
  ⟨fun _ _ => true, fun _ _ _ => ("path", 0), fun _ _ _ => ("path", 0)⟩

/-! ## Helper lemmas -/

theorem encChar64_valid : ∀ v, v < 64 → isB64 (encChar64 v) = true ∧ encChar64 v ≠ '=' := by decide

theorem decB64_encChar64 : ∀ v, v < 64 → decB64 (encChar64 v) = v := by decide

theorem b64_master : ∀ (bs : List Nat), (∀ b ∈ bs, b < 256) →
    ((b64encode bs).filter (fun c => isB64 c || c == '=') = b64encode bs)
    ∧ ((b64encode bs).length % 4 = 0)
    ∧ (((b64encode bs).takeWhile (fun c => c ≠ '=')).length % 4 ≠ 1)
    ∧ (b64decodeQuads ((b64encode bs).takeWhile (fun c => c ≠ '=')) = .ok bs)
  | [], _ => by simp [b64encode, b64decodeQuads]
  | [a], h => by
    have ha : a < 256 := h a (by simp)
    have h1 := encChar64_valid (a / 4) (by omega)
    have h2 := encChar64_valid (a % 4 * 16) (by omega)
    refine ⟨?_, ?_, ?_, ?_⟩
    · simp [b64encode, h1.1, h2.1]
    · simp [b64encode]
    · simp [b64encode, List.takeWhile_cons, h1.2, h2.2]
    · simp only [b64encode, List.takeWhile_cons]
      simp [h1.2, h2.2, b64decodeQuads, decB64_encChar64 _ (by omega : a / 4 < 64),
        decB64_encChar64 _ (by omega : a % 4 * 16 < 64)]
      omega
  | [a, b], h => by
    have ha : a < 256 := h a (by simp)
    have hb : b < 256 := h b (by simp)
    have h1 := encChar64_valid (a / 4) (by omega)
    have h2 := encChar64_valid (a % 4 * 16 + b / 16) (by omega)
    have h3 := encChar64_valid (b % 16 * 4) (by omega)
    refine ⟨?_, ?_, ?_, ?_⟩
    · simp [b64encode, h1.1, h2.1, h3.1]
    · simp [b64encode]
    · simp [b64encode, List.takeWhile_cons, h1.2, h2.2, h3.2]
    · simp only [b64encode, List.takeWhile_cons]
      simp [h1.2, h2.2, h3.2, b64decodeQuads, decB64_encChar64 _ (by omega : a / 4 < 64),
        decB64_encChar64 _ (by omega : a % 4 * 16 + b / 16 < 64),
        decB64_encChar64 _ (by omega : b % 16 * 4 < 64)]
      constructor
      · omega
      · omega
  | a :: b :: c :: rest, h => by
    have ha : a < 256 := h a (by simp)
    have hb : b < 256 := h b (by simp)
    have hc : c < 256 := h c (by simp)
    have ih := b64_master rest (fun x hx =>
      h x (List.mem_cons_of_mem _ (List.mem_cons_of_mem _ (List.mem_cons_of_mem _ hx))))
    have h1 := encChar64_valid (a / 4) (by omega)
    have h2 := encChar64_valid (a % 4 * 16 + b / 16) (by omega)
    have h3 := encChar64_valid (b % 16 * 4 + c / 64) (by omega)
    have h4 := encChar64_valid (c % 64) (by omega)
    refine ⟨?_, ?_, ?_, ?_⟩
    · simp only [b64encode, List.filter_cons]
      simp [h1.1, h2.1, h3.1, h4.1, ih.1]
    · simp only [b64encode, List.length_cons]
      have := ih.2.1
      omega
    · simp only [b64encode]
      simp [List.takeWhile_cons, h1.2, h2.2, h3.2, h4.2]
      have h5 := ih.2.2.1
      simp only [ne_eq, decide_not] at h5
      omega
    · simp only [b64encode]
      simp [List.takeWhile_cons, h1.2, h2.2, h3.2, h4.2, b64decodeQuads, ih.2.2.2,
        decB64_encChar64 _ (by omega : a / 4 < 64),
        decB64_encChar64 _ (by omega : a % 4 * 16 + b / 16 < 64),
        decB64_encChar64 _ (by omega : b % 16 * 4 + c / 64 < 64),
        decB64_encChar64 _ (by omega : c % 64 < 64)]
      have h6 := ih.2.2.2
      simp only [ne_eq, decide_not] at h6
      rw [h6]
      simp only [Except.map]
      have e1 : a / 4 * 4 + (a % 4 * 16 + b / 16) / 16 = a := by omega
      have e2 : (a % 4 * 16 + b / 16) % 16 * 16 + (b % 16 * 4 + c / 64) / 4 = b := by omega
      have e3 : (b % 16 * 4 + c / 64) % 4 * 64 + c % 64 = c := by omega
      rw [e1, e2, e3]

theorem b64decode_b64encode (bs : List Nat) (h : ∀ b ∈ bs, b < 256) :
    b64decode (String.mk (b64encode bs)) = .ok bs := by
  have m := b64_master bs h
  simp only [b64decode]
  rw [m.1]
  have hne : (((b64encode bs).takeWhile (fun c => c ≠ '=')).length % 4 == 1) = false := by
    have := m.2.2.1
    simpa using this
  rw [hne]
  simp only [Bool.false_eq_true, if_false]
  rw [if_neg (by simp [m.2.1])]
  exact m.2.2.2

theorem routeWrap_putId (r : Except InnerE Json × Option Json) : (routeWrap r).putId = r.2 := by
  unfold routeWrap
  rcases r with ⟨res, pid⟩
  cases res with
  | ok j => rfl
  | error e =>
    dsimp only
    split <;> rfl

theorem upload_from_url_body_putId (c : AESCrypto) (A : AEAD)
    (nonce : List Nat) (g : GcsClient) (basenameOf : String → String) (uuid : String)
    (request : UploadReq) (fid : Json)
    (h : (upload_from_url_body c A nonce g basenameOf uuid request).2 = some fid) :
    g.file_exists fid true = false ∧ g.file_exists fid false = false := by
  unfold upload_from_url_body at h
  dsimp only at h
  repeat' split at h
  all_goals simp_all

theorem upload_direct_body_putId (c : AESCrypto) (A : AEAD)
    (nonce : List Nat) (g : GcsClient) (uuid : String) (outcome : FormOutcome) (fid : Json)
    (h : (upload_direct_body c A nonce g uuid outcome).2 = some fid) :
    g.file_exists fid true = false ∧ g.file_exists fid false = false := by
  unfold upload_direct_body at h
  dsimp only at h
  repeat' split at h
  all_goals simp_all

theorem upload_url_conflict (c : AESCrypto) (A : AEAD)
    (nonce : List Nat) (g : GcsClient) (basenameOf : String → String) (uuid : String)
    (url fidStr : String) (isPub : Bool)
    (hurl : url ≠ "") (hfid : fidStr ≠ "")
    (hex : (g.file_exists (Json.str fidStr) true || g.file_exists (Json.str fidStr) false) = true) :
    upload_from_url_route c A nonce g basenameOf uuid (.plain url (some fidStr) isPub) =
      ⟨.error ⟨500, "Upload failed: 409: File already exists"⟩, none⟩ := by
  unfold upload_from_url_route upload_from_url_body routeWrap
  dsimp only
  simp [jTruthy, Json.truthy, hurl, hfid, hex, InnerE.isValueError, InnerE.str, HTTPException.str]
  rfl

theorem upload_direct_conflict (c : AESCrypto) (A : AEAD)
    (nonce : List Nat) (g : GcsClient) (uuid : String)
    (content : List Nat) (fn : Option String) (fidStr : String)
    (hfid : fidStr ≠ "")
    (hex : (g.file_exists (Json.str fidStr) true || g.file_exists (Json.str fidStr) false) = true) :
    upload_direct_route c A nonce g uuid
        (.ok [("file", .ffile fn content), ("file_id", .fstr fidStr)]) =
      ⟨.error ⟨500, "Upload failed: 409: File already exists"⟩, none⟩ := by
  unfold upload_direct_route upload_direct_body routeWrap parse_large_form
  dsimp only
  simp [jTruthy, Json.truthy, FormValue.truthy, FormValue.toJson, lookupJ, hfid, hex,
    InnerE.isValueError, InnerE.str, HTTPException.str]
  rfl

/-! ## Claims -/

/-- C1, counterexample: constructing the codec with no key material configured
(no parameter, no `AES_KEY_HASH` environment value) raises the configuration
`ValueError` immediately — refuting the claim that the error is raised only
when an encrypt/decrypt operation is actually requested, never by
construction.  Since `crypto.py` constructs the module-level global
`crypto = AESCrypto()` at import time, this is a load-time failure. -/
theorem C1_counterexample :
    AESCrypto.mk? none none = .error (.valueError "AES_KEY_HASH environment variable not set") := rfl

/-- C1, amended: absence of key material is fatal already at codec
construction — `AESCrypto.__init__` raises the configuration `ValueError`
when neither the parameter nor `AES_KEY_HASH` supplies a truthy value, and
succeeds (with no encryption invoked) exactly when one does.  Because the
module builds a global instance at import, the plaintext path is not
available without key material. -/
theorem C1_amended :
    AESCrypto.mk? none none = .error (.valueError "AES_KEY_HASH environment variable not set") ∧
    AESCrypto.mk? none (some "") = .error (.valueError "AES_KEY_HASH environment variable not set") ∧
    (∀ s : String, s ≠ "" → AESCrypto.mk? none (some s) = .ok ⟨s⟩) := by
  refine ⟨rfl, rfl, ?_⟩
  intro s hs
  simp [AESCrypto.mk?, pyOrStr, hs]

theorem C1_amended_witness : AESCrypto.mk? none (some "k1") = .ok ⟨"k1"⟩ :=
  C1_amended.2.2 "k1" (by decide)

/-- C2: for every JSON-object mapping and every 12-byte nonce drawn during
encryption, `decrypt_payload (encrypt_payload m)` returns a mapping equal
to `m`.  The AES-GCM and JSON libraries enter as hypotheses: the AEAD
round-trip law at the encrypted plaintext, and the `json.loads`/`json.dumps`
round-trip at `m` (both discharged concretely in the witness). -/
theorem C2_roundtrip (c : AESCrypto) (A : AEAD) (fields : List (String × Json))
    (nonce key : List Nat) (env : String)
    (hn : nonce.length = 12)
    (hkey : AESCrypto.derive_key_from_hash c.key_hash = .ok key)
    (hbytes : ∀ b ∈ nonce ++ A.encrypt key nonce (utf8Encode (jsonDumps (Json.obj fields))), b < 256)
    (hA : A.decrypt key nonce (A.encrypt key nonce (utf8Encode (jsonDumps (Json.obj fields)))) =
      some (utf8Encode (jsonDumps (Json.obj fields))))
    (hJ : jsonLoadsBytes (utf8Encode (jsonDumps (Json.obj fields))) = some (Json.obj fields))
    (henc : AESCrypto.encrypt_payload c A nonce (.pdict fields) = .ok env) :
    AESCrypto.decrypt_payload c A env = .ok (.json (.obj fields)) := by
  set pt := utf8Encode (jsonDumps (Json.obj fields)) with hpt
  have henv : env = String.mk (b64encode (nonce ++ A.encrypt key nonce pt)) := by
    simp [AESCrypto.encrypt_payload, hkey] at henc
    exact henc.symm
  subst henv
  have hb64 : b64decode (String.mk (b64encode (nonce ++ A.encrypt key nonce pt))) =
      .ok (nonce ++ A.encrypt key nonce pt) := b64decode_b64encode _ hbytes
  have htake : (nonce ++ A.encrypt key nonce pt).take 12 = nonce := by
    rw [← hn]
    exact List.take_left _ _
  have hdrop : (nonce ++ A.encrypt key nonce pt).drop 12 = A.encrypt key nonce pt := by
    rw [← hn]
    exact List.drop_left _ _
  simp [AESCrypto.decrypt_payload, AESCrypto.decrypt_payload_body, hb64, htake, hdrop, hkey, hA, hJ]

theorem C2_roundtrip_witness :
    ∃ env, AESCrypto.encrypt_payload zeroCrypto padAEAD zeroNonce (.pdict scenarioFields) = .ok env ∧
      AESCrypto.decrypt_payload zeroCrypto padAEAD env = .ok (.json (.obj scenarioFields)) := by
  refine ⟨_, rfl, ?_⟩
  exact C2_roundtrip zeroCrypto padAEAD scenarioFields zeroNonce (List.replicate 32 0) _
    rfl (by rfl) (by decide) (by rfl) (by rfl) rfl

/-- C3: evaluation of the code at the failing input.  A 64-character string
containing a non-hex character (here 64 × 'x') makes `_derive_key_from_hash`
raise `ValueError` from `bytes.fromhex` — the `len(key_hash) == 64` branch
tests only the length, contradicting both the claim (fall back to the
SHA-256 digest) and the code's own comment ("if it's already 64 hex
chars"); `encrypt_payload` then surfaces it as "Encryption failed: ...". -/
theorem C3_code_evaluation :
    AESCrypto.derive_key_from_hash (String.mk (List.replicate 64 'x')) =
      .error (.valueError "non-hexadecimal number found in fromhex() arg") ∧
    AESCrypto.encrypt_payload ⟨String.mk (List.replicate 64 'x')⟩ padAEAD zeroNonce (.pstr "hi") =
      .error (.valueError "Encryption failed: non-hexadecimal number found in fromhex() arg") :=
  ⟨by rfl, by rfl⟩

/-- C4, counterexample: an invalid-base64 envelope (`"a"`) and a
tag-rejected envelope both reach the caller as the same generic
`ValueError` category ("Decryption failed: ..."), refuting the claim that
`DecodeError` and `AuthenticationError` arrive as distinct, mappable
categories. -/
theorem C4_counterexample :
    AESCrypto.decrypt_payload zeroCrypto padAEAD "a" = .error (.valueError
      "Decryption failed: Invalid base64-encoded string: number of data characters cannot be 1 more than a multiple of 4") ∧
    AESCrypto.decrypt_payload zeroCrypto padAEAD
        (String.mk (b64encode (zeroNonce ++ List.replicate 16 1))) =
      .error (.valueError "Decryption failed: ") ∧
    (PyErr.valueError
      "Decryption failed: Invalid base64-encoded string: number of data characters cannot be 1 more than a multiple of 4").category =
      (PyErr.valueError "Decryption failed: ").category :=
  ⟨by rfl, by rfl, rfl⟩

/-- C4, amended: `decrypt_payload` collapses every failure cause — invalid
base64, short payload, tag verification failure — into the single generic
category `ValueError("Decryption failed: " + str(e))`; no distinct decode
or authentication category escapes it. -/
theorem C4_amended (c : AESCrypto) (A : AEAD) (s : String) (e : PyErr)
    (h : AESCrypto.decrypt_payload c A s = .error e) :
    ∃ m, e = .valueError ("Decryption failed: " ++ m) ∧ e.category = ErrCat.value := by
  unfold AESCrypto.decrypt_payload at h
  cases hbody : AESCrypto.decrypt_payload_body c A s with
  | ok r => rw [hbody] at h; cases h
  | error e' =>
    rw [hbody] at h
    injection h with h'
    exact ⟨e'.msg, h'.symm, by rw [← h']; rfl⟩

theorem C4_amended_witness :
    ∃ m, (PyErr.valueError
        "Decryption failed: Invalid base64-encoded string: number of data characters cannot be 1 more than a multiple of 4") =
      .valueError ("Decryption failed: " ++ m) ∧
      (PyErr.valueError
        "Decryption failed: Invalid base64-encoded string: number of data characters cannot be 1 more than a multiple of 4").category =
        ErrCat.value :=
  C4_amended zeroCrypto padAEAD "a" _ (by rfl)

/-- C5, counterexample: a request body that is not a mapping is NOT
returned unchanged: `handle_encrypted_request("hello")` returns the empty
mapping `\x7b\x7d` (`request_data if isinstance(request_data, dict) else \x7b\x7d`). -/
theorem C5_counterexample :
    handle_encrypted_request zeroCrypto padAEAD (.str "hello") = .ok (.obj []) ∧
    handle_encrypted_request zeroCrypto padAEAD (.str "hello") ≠ .ok (.str "hello") := by
  refine ⟨rfl, ?_⟩
  intro h
  rw [show handle_encrypted_request zeroCrypto padAEAD (.str "hello") = .ok (.obj []) from rfl] at h
  injection h with h'
  cases h'

/-- C5, amended: a mapping without `encrypted_payload` passes through
unchanged; a non-mapping body is replaced by the empty mapping. -/
theorem C5_amended (c : AESCrypto) (A : AEAD) :
    (∀ fs, lookupJ "encrypted_payload" fs = none →
      handle_encrypted_request c A (.obj fs) = .ok (.obj fs)) ∧
    (∀ j : Json, j.isObj = false → handle_encrypted_request c A j = .ok (.obj [])) := by
  constructor
  · intro fs h
    simp [handle_encrypted_request, h]
  · intro j hj
    cases j <;> simp_all [handle_encrypted_request, Json.isObj]

theorem C5_amended_witness :
    handle_encrypted_request zeroCrypto padAEAD (.obj [("a", Json.num 1)]) =
      .ok (.obj [("a", Json.num 1)]) :=
  (C5_amended zeroCrypto padAEAD).1 _ (by rfl)

/-- C6, counterexample: with no key material configured the program does
NOT return the data unchanged for `wrap_response(data, true)` — the
module-level `crypto = AESCrypto()` raises the configuration `ValueError`
at import and the application fails to start, so no response (and in
particular not the unchanged data) is ever produced. -/
theorem C6_counterexample :
    program_wrap_response none padAEAD zeroNonce [("x", Json.num 1)] true =
      .error (.valueError "AES_KEY_HASH environment variable not set") ∧
    program_wrap_response none padAEAD zeroNonce [("x", Json.num 1)] true ≠
      .ok (.ok (.obj [("x", Json.num 1)])) := by
  refine ⟨rfl, ?_⟩
  intro h
  rw [show program_wrap_response none padAEAD zeroNonce [("x", Json.num 1)] true =
    .error (.valueError "AES_KEY_HASH environment variable not set") from rfl] at h
  exact Except.noConfusion h

/-- C6, amended: whenever the wrapper is callable the module import
succeeded, the global codec exists and `requires_encryption()` is `True`;
a response is then encrypted — with the exact
`\x7b"encrypted_payload": <envelope>\x7d` shape — iff the client requested
encryption, and the data mapping is returned unchanged otherwise.  With no
key material configured the import itself fails with the configuration
error: there is no plaintext pass-through for
`wrap_response(data, true)`. -/
theorem C6_amended (A : AEAD) (nonce : List Nat) (data : List (String × Json)) :
    (∀ c : AESCrypto, requires_encryption c = true) ∧
    (∀ env c key, AESCrypto.mk? none env = .ok c →
      AESCrypto.derive_key_from_hash c.key_hash = .ok key →
      ∃ e, program_wrap_response env A nonce data true =
        .ok (.ok (.obj [("encrypted_payload", .str e)]))) ∧
    (∀ env c, AESCrypto.mk? none env = .ok c →
      program_wrap_response env A nonce data false = .ok (.ok (.obj data))) ∧
    (∀ env e, AESCrypto.mk? none env = .error e →
      program_wrap_response env A nonce data true = .error e) := by
  refine ⟨?_, ?_, ?_, ?_⟩
  · intro c
    rfl
  · intro env c key hmk hkey
    simp [program_wrap_response, hmk, wrap_response, requires_encryption,
      create_encrypted_response, AESCrypto.encrypt_payload, hkey]
  · intro env c hmk
    simp [program_wrap_response, hmk, wrap_response, requires_encryption]
  · intro env e hmk
    simp [program_wrap_response, hmk]

theorem C6_amended_witness :
    (∃ e, program_wrap_response (some "k2") padAEAD zeroNonce [("x", Json.num 1)] true =
      .ok (.ok (.obj [("encrypted_payload", .str e)]))) ∧
    program_wrap_response none padAEAD zeroNonce [("x", Json.num 1)] true =
      .error (.valueError "AES_KEY_HASH environment variable not set") :=
  ⟨(C6_amended padAEAD zeroNonce [("x", Json.num 1)]).2.1 (some "k2") ⟨"k2"⟩
      (sha256 (utf8Encode "k2")) (by rfl) (by rfl),
    (C6_amended padAEAD zeroNonce [("x", Json.num 1)]).2.2.2 none _ (by rfl)⟩

/-- C7, counterexample: a valid envelope whose base64-decoded form has its
last byte flipped (0 → 1, a tag byte the specimen AEAD rejects) makes
`decrypt_payload` fail — but with the generic `ValueError("Decryption
failed: ")`, whose category is not the distinct authentication category
the claim names. -/
theorem C7_counterexample :
    AESCrypto.encrypt_payload zeroCrypto padAEAD zeroNonce (.pstr "hi") =
      .ok (String.mk (b64encode (zeroNonce ++ (utf8Encode "hi" ++ List.replicate 16 0)))) ∧
    AESCrypto.decrypt_payload zeroCrypto padAEAD
        (String.mk (b64encode (zeroNonce ++ (utf8Encode "hi" ++ (List.replicate 15 0 ++ [1]))))) =
      .error (.valueError "Decryption failed: ") ∧
    (PyErr.valueError "Decryption failed: ").category ≠ ErrCat.auth :=
  ⟨by rfl, by rfl, by decide⟩

/-- C7, amended: whenever the AEAD rejects the (tampered) ciphertext — as
AES-GCM does for any single-byte modification of a genuine envelope — 
`decrypt_payload` raises rather than returning wrong plaintext, but the
failure surfaces as the generic `ValueError("Decryption failed: ")` (the
`str` of an `InvalidTag` is empty), not as a distinct
`AuthenticationError`. -/
theorem C7_amended (c : AESCrypto) (A : AEAD) (tampered : String) (ebs key : List Nat)
    (hdec : b64decode tampered = .ok ebs)
    (hkey : AESCrypto.derive_key_from_hash c.key_hash = .ok key)
    (hA : A.decrypt key (ebs.take 12) (ebs.drop 12) = none) :
    AESCrypto.decrypt_payload c A tampered = .error (.valueError "Decryption failed: ") := by
  simp [AESCrypto.decrypt_payload, AESCrypto.decrypt_payload_body, hdec, hkey, hA, PyErr.msg]

theorem C7_amended_witness :
    AESCrypto.decrypt_payload zeroCrypto padAEAD
        (String.mk (b64encode (zeroNonce ++ List.replicate 16 2))) =
      .error (.valueError "Decryption failed: ") :=
  C7_amended zeroCrypto padAEAD _ (zeroNonce ++ List.replicate 16 2) (List.replicate 32 0)
    (by rfl) (by rfl) (by rfl)

/-- C8, counterexample: an envelope whose plaintext is `"123"` decrypts to
the JSON number 123 — `decrypt_payload` returns whatever `json.loads`
returns, which is neither a JSON-object mapping nor raw bytes. -/
theorem C8_counterexample :
    AESCrypto.decrypt_payload zeroCrypto padAEAD
        (String.mk (b64encode (zeroNonce ++ (utf8Encode "123" ++ List.replicate 16 0)))) =
      .ok (.json (.num 123)) ∧
    (DecResult.json (.num 123)).isObjOrBytes = false :=
  ⟨by rfl, rfl⟩

/-- C8, amended: a successful `decrypt_payload` always returns the
`json.loads` value of the plaintext (a JSON value of any shape, not only
an object) when it parses, and the raw plaintext bytes otherwise. -/
theorem C8_amended (c : AESCrypto) (A : AEAD) (s : String) (r : DecResult)
    (h : AESCrypto.decrypt_payload c A s = .ok r) :
    ∃ pt key ebs, AESCrypto.derive_key_from_hash c.key_hash = .ok key ∧
      b64decode s = .ok ebs ∧ A.decrypt key (ebs.take 12) (ebs.drop 12) = some pt ∧
      r = (match jsonLoadsBytes pt with
           | some j => DecResult.json j
           | none => DecResult.bytes pt) := by
  unfold AESCrypto.decrypt_payload at h
  cases hbody : AESCrypto.decrypt_payload_body c A s with
  | error e => rw [hbody] at h; cases h
  | ok r' =>
    rw [hbody] at h
    injection h with h'
    subst h'
    unfold AESCrypto.decrypt_payload_body at hbody
    cases hb : b64decode s with
    | error e => rw [hb] at hbody; cases hbody
    | ok ebs =>
      rw [hb] at hbody
      dsimp only at hbody
      cases hk : AESCrypto.derive_key_from_hash c.key_hash with
      | error e => rw [hk] at hbody; cases hbody
      | ok key =>
        rw [hk] at hbody
        dsimp only at hbody
        cases hA : A.decrypt key (ebs.take 12) (ebs.drop 12) with
        | none => rw [hA] at hbody; cases hbody
        | some pt =>
          rw [hA] at hbody
          dsimp only at hbody
          refine ⟨pt, key, ebs, rfl, rfl, hA, ?_⟩
          cases hj : jsonLoadsBytes pt with
          | some j =>
            rw [hj] at hbody
            dsimp only at hbody ⊢
            injection hbody with h2
            exact h2.symm
          | none =>
            rw [hj] at hbody
            dsimp only at hbody ⊢
            injection hbody with h2
            exact h2.symm

theorem C8_amended_witness :
    ∃ pt key ebs, AESCrypto.derive_key_from_hash zeroCrypto.key_hash = .ok key ∧
      b64decode (String.mk (b64encode (zeroNonce ++ ([255, 255] ++ List.replicate 16 0)))) = .ok ebs ∧
      padAEAD.decrypt key (ebs.take 12) (ebs.drop 12) = some pt ∧
      DecResult.bytes [255, 255] = (match jsonLoadsBytes pt with
           | some j => DecResult.json j
           | none => DecResult.bytes pt) :=
  C8_amended zeroCrypto padAEAD _ (.bytes [255, 255]) (by rfl)

/-- C9: multipart ingestion with the 250 MiB per-part bound: a form whose
parts are all within the bound parses to its field mapping; a part over
the bound makes the framework parser fail with the "maximum size" message,
which `parse_large_form` maps to the distinct 413 error; any other parse
failure maps to the generic 400 "Form parsing failed" error. -/
theorem C9_parse_large_form :
    (∀ parts : List (String × FormValue),
      (∀ p ∈ parts, p.2.partSize ≤ upload_max_bytes) →
      parse_large_form (formModel upload_max_bytes parts) = .ok parts) ∧
    (∀ parts : List (String × FormValue),
      (∃ p ∈ parts, upload_max_bytes < p.2.partSize) →
      parse_large_form (formModel upload_max_bytes parts) =
        .error ⟨413, "File too large. Maximum size is 250MB for encrypted uploads."⟩) ∧
    (∀ m, mentionsMaxSize m = false →
      parse_large_form (.err m) = .error ⟨400, "Form parsing failed: " ++ m⟩) := by
  refine ⟨?_, ?_, ?_⟩
  · intro parts h
    have hfalse : (parts.any fun p => upload_max_bytes < p.2.partSize) = false := by
      rw [List.any_eq_false]
      intro p hp
      simpa using h p hp
    simp [formModel, hfalse, parse_large_form]
  · intro parts h
    obtain ⟨p, hp, hsz⟩ := h
    have htrue : (parts.any fun p => upload_max_bytes < p.2.partSize) = true :=
      List.any_eq_true.mpr ⟨p, hp, by simpa using hsz⟩
    have hmsg : mentionsMaxSize
        ("Part exceeded maximum size of " ++ toString (upload_max_bytes / 1024) ++ "KB.") = true := by
      decide
    simp [formModel, htrue, parse_large_form, hmsg]
  · intro m h
    simp [parse_large_form, h]

theorem C9_parse_large_form_witness :
    parse_large_form (formModel upload_max_bytes
        [("file", .ffile none (List.replicate (upload_max_bytes + 1) 0))]) =
      .error ⟨413, "File too large. Maximum size is 250MB for encrypted uploads."⟩ ∧
    parse_large_form (formModel upload_max_bytes [("file_id", .fstr "a.txt")]) =
      .ok [("file_id", .fstr "a.txt")] := by
  constructor
  · exact C9_parse_large_form.2.1 _ ⟨_, List.mem_singleton.mpr rfl, by simp [FormValue.partSize]⟩
  · refine C9_parse_large_form.1 _ ?_
    intro p hp
    rw [List.mem_singleton.mp hp]
    decide

/-- C10, amended: both upload operations never overwrite: a storage put
only ever happens for a file id that exists in neither partition, and when
the resolved id exists in either partition no put is performed and the
route fails — with the internal 409 conflict rewrapped by the blanket
handler into a 500 "Upload failed: 409: File already exists". -/
theorem C10_amended :
    (∀ c A nonce g basenameOf uuid request fid,
      (upload_from_url_route c A nonce g basenameOf uuid request).putId = some fid →
      g.file_exists fid true = false ∧ g.file_exists fid false = false) ∧
    (∀ c A nonce g uuid outcome fid,
      (upload_direct_route c A nonce g uuid outcome).putId = some fid →
      g.file_exists fid true = false ∧ g.file_exists fid false = false) ∧
    (∀ c A nonce g basenameOf uuid url fidStr isPub, url ≠ "" → fidStr ≠ "" →
      (g.file_exists (Json.str fidStr) true || g.file_exists (Json.str fidStr) false) = true →
      upload_from_url_route c A nonce g basenameOf uuid (.plain url (some fidStr) isPub) =
        ⟨.error ⟨500, "Upload failed: 409: File already exists"⟩, none⟩) ∧
    (∀ c A nonce g uuid content fn fidStr, fidStr ≠ "" →
      (g.file_exists (Json.str fidStr) true || g.file_exists (Json.str fidStr) false) = true →
      upload_direct_route c A nonce g uuid
          (.ok [("file", .ffile fn content), ("file_id", .fstr fidStr)]) =
        ⟨.error ⟨500, "Upload failed: 409: File already exists"⟩, none⟩) := by
  refine ⟨?_, ?_, ?_, ?_⟩
  · intro c A nonce g basenameOf uuid request fid h
    unfold upload_from_url_route at h
    rw [routeWrap_putId] at h
    exact upload_from_url_body_putId c A nonce g basenameOf uuid request fid h
  · intro c A nonce g uuid outcome fid h
    unfold upload_direct_route at h
    rw [routeWrap_putId] at h
    exact upload_direct_body_putId c A nonce g uuid outcome fid h
  · intro c A nonce g basenameOf uuid url fidStr isPub hurl hfid hex
    exact upload_url_conflict c A nonce g basenameOf uuid url fidStr isPub hurl hfid hex
  · intro c A nonce g uuid content fn fidStr hfid hex
    exact upload_direct_conflict c A nonce g uuid content fn fidStr hfid hex

/-- C10, counterexample: when the target file id already exists, the
upload route does refuse — but the `HTTPException(409)` raised inside the
`try` block is caught by the route's own `except Exception` clause and
rewrapped, so the caller sees status 500 ("Upload failed: 409: File
already exists"), not the conflict status 409 the claim states. -/
theorem C10_counterexample :
    (upload_from_url_route ⟨"k3"⟩ padAEAD zeroNonce allExistsGcs (fun _ => "f.txt")
        "uuid-4" (.plain "http://h/f.txt" (some "f.txt") false)).resp =
      .error ⟨500, "Upload failed: 409: File already exists"⟩ ∧
    (upload_from_url_route ⟨"k3"⟩ padAEAD zeroNonce allExistsGcs (fun _ => "f.txt")
        "uuid-4" (.plain "http://h/f.txt" (some "f.txt") false)).putId = none ∧
    (500 : Nat) ≠ 409 :=
  ⟨by rfl, by rfl, by decide⟩

theorem C10_amended_witness :
    upload_from_url_route ⟨"k4"⟩ padAEAD zeroNonce allExistsGcs (fun _ => "g.txt")
        "uuid-5" (.plain "http://h/g.txt" (some "g.txt") false) =
      ⟨.error ⟨500, "Upload failed: 409: File already exists"⟩, none⟩ :=
  C10_amended.2.2.1 ⟨"k4"⟩ padAEAD zeroNonce allExistsGcs (fun _ => "g.txt")
    "uuid-5" "http://h/g.txt" "g.txt" false (by decide) (by decide) rfl
